import Mathlib

/-!
Verification of the input-validation / sanitization rule engine of the
kintone-ic-loss-plugin repository: the `DataValidator` (field rules and
security scan), the `InputValidator` sanitizer, and the `ICCardValidator`
(card classification, Luhn checksum, masking).

Strings are modelled as `List Char` / `String`; each JavaScript regular
expression used by the source is embedded as an explicit Lean matcher with
the ECMAScript semantics it relies on (case folding for `/i`, word
boundaries `\b`, the `.`-excludes-line-terminators rule, and the
`lastIndex` state of `/g`-flagged regexes used with `RegExp.test`).
-/

set_option maxRecDepth 8000

namespace ICLoss

/-- ECMAScript word character: `\w` = `[A-Za-z0-9_]`. -/
def isWordChar (c : Char) : Bool := c.isAlpha || c.isDigit || c == '_'

/-- ECMAScript whitespace class `\s` (WhiteSpace plus LineTerminator):
space 32, tab 9, LF 10, CR 13, VT 11, FF 12, NBSP 0xa0, and the Unicode
space code points. -/
def isJsSpace (c : Char) : Bool :=
  c.toNat == 32 || c.toNat == 9 || c.toNat == 10 || c.toNat == 13 ||
  c.toNat == 11 || c.toNat == 12 || c.toNat == 0xa0 || c.toNat == 0x1680 ||
  (0x2000 ≤ c.toNat && c.toNat ≤ 0x200a) || c.toNat == 0x2028 || c.toNat == 0x2029 ||
  c.toNat == 0x202f || c.toNat == 0x205f || c.toNat == 0x3000 || c.toNat == 0xfeff

/-- ECMAScript line terminators (LF, CR, LS, PS); `.` (without the `s`
flag) matches exactly the characters that are not one of these. -/
def isLineTerm (c : Char) : Bool :=
  c.toNat == 10 || c.toNat == 13 || c.toNat == 0x2028 || c.toNat == 0x2029

/-- What `.` matches in the source's regexes (no `s` flag anywhere). -/
def dotChar (c : Char) : Bool := !(isLineTerm c)

/-- Case-insensitive character comparison, as canonicalised by the `/i`
flag on the source's ASCII-only patterns. -/
def ciEq (a b : Char) : Bool := a.toLower == b.toLower

/-- `pat` occurs case-insensitively as a prefix of `s`. -/
def pfxCI : List Char → List Char → Bool
  | [], _ => true
  | _ :: _, [] => false
  | p :: ps, c :: cs => ciEq p c && pfxCI ps cs

/-- `pat` occurs case-insensitively at position `i` of `s`. -/
def pfxCIAt (s : List Char) (i : Nat) (pat : List Char) : Bool := pfxCI pat (s.drop i)

/-- `pat` occurs (case-sensitively) at position `i` of `s`. -/
def subAt (s : List Char) (i : Nat) (pat : List Char) : Bool := pat.isPrefixOf (s.drop i)

/-- `pat` occurs somewhere in `s` (an unanchored literal regex). -/
def containsSub (s : List Char) (pat : List Char) : Bool :=
  (List.range (s.length + 1)).any (fun i => subAt s i pat)

/-- The character at position `i` exists and is a word character. -/
def isWordAt (s : List Char) (i : Nat) : Bool :=
  match s[i]? with
  | some c => isWordChar c
  | none => false

/-- `\b` holds between positions `i - 1` and `i` when the following
character is a word character: the preceding one must not be. -/
def prevNonWord (s : List Char) (i : Nat) : Bool := i == 0 || !(isWordAt s (i - 1))

/-- The character at position `i` of `s` is exactly `c`. -/
def charIs (s : List Char) (i : Nat) (c : Char) : Bool := s[i]? == some c

/-- Every character of `s` at a position in `[lo, hi)` satisfies `p`. -/
def allBetween (s : List Char) (lo hi : Nat) (p : Char → Bool) : Bool :=
  ((s.drop lo).take (hi - lo)).all p

/-- A keyword consisting of word characters occurs case-insensitively at
position `i` with `\b` boundaries on both sides. -/
def wordAtCI (s : List Char) (i : Nat) (kw : List Char) : Bool :=
  prevNonWord s i && pfxCIAt s i kw && !(isWordAt s (i + kw.length))

/-- `\bKW\b` matches somewhere in `s`, case-insensitively. -/
def containsWordCI (s : List Char) (kw : List Char) : Bool :=
  (List.range (s.length + 1)).any (fun i => wordAtCI s i kw)

/-- Length of the maximal run of characters satisfying `p` starting at `i`. -/
def runLen (s : List Char) (i : Nat) (p : Char → Bool) : Nat :=
  ((s.drop i).takeWhile p).length

/-! ## The SQL-injection pattern set (`DataValidator.sqlInjectionPatterns`) -/

def sqlKeywords : List (List Char) :=
  ["SELECT", "INSERT", "UPDATE", "DELETE", "DROP", "CREATE", "ALTER", "EXEC", "UNION"].map
    String.data

/-- Pattern `/(\b(SELECT|INSERT|UPDATE|DELETE|DROP|CREATE|ALTER|EXEC|UNION)\b)/i`. -/
def sqlPattern1 (s : List Char) : Bool := sqlKeywords.any (containsWordCI s)

/-- Pattern `/(\-\-|\#|\/\*|\*\/)/`. -/
def sqlPattern2 (s : List Char) : Bool :=
  containsSub s "--".data || containsSub s "#".data ||
  containsSub s "/*".data || containsSub s "*/".data

def orAndKeywords : List (List Char) := ["OR", "AND"].map String.data

/-- Pattern `/(\b(OR|AND)\b.*=.*(\b(OR|AND)\b|$))/i`: a word-bounded OR/AND,
then `.*`, a literal `=`, `.*`, and either another word-bounded OR/AND or
the end of the input. -/
def sqlPattern3 (s : List Char) : Bool :=
  (List.range (s.length + 1)).any fun a =>
    orAndKeywords.any fun k =>
      wordAtCI s a k &&
      ((List.range (s.length + 1)).any fun b =>
        a + k.length ≤ b && charIs s b '=' && allBetween s (a + k.length) b dotChar &&
        (allBetween s (b + 1) s.length dotChar ||
         (List.range (s.length + 1)).any fun c =>
           b + 1 ≤ c && orAndKeywords.any (fun k2 => wordAtCI s c k2) &&
             allBetween s (b + 1) c dotChar))

/-- Pattern `/(\'|\").*(\bOR\b|\bAND\b).*(\1)/i`: a quote, `.*`, a
word-bounded OR/AND, `.*`, and the same quote again (backreference). -/
def sqlPattern4 (s : List Char) : Bool :=
  (List.range s.length).any fun i =>
    (charIs s i '\'' || charIs s i '"') &&
    ((List.range (s.length + 1)).any fun a =>
      i + 1 ≤ a &&
      orAndKeywords.any fun k =>
        wordAtCI s a k && allBetween s (i + 1) a dotChar &&
        (List.range s.length).any fun j =>
          a + k.length ≤ j && s[j]? == s[i]? && allBetween s (a + k.length) j dotChar)

/-- Pattern `/(\b(SCRIPT|JAVASCRIPT|VBSCRIPT)\b)/i`. -/
def sqlPattern5 (s : List Char) : Bool :=
  (["SCRIPT", "JAVASCRIPT", "VBSCRIPT"].map String.data).any (containsWordCI s)

def sqlInjectionPatterns : List (List Char → Bool) :=
  [sqlPattern1, sqlPattern2, sqlPattern3, sqlPattern4, sqlPattern5]

/-! ## The OS-command / path-traversal pattern set (`DataValidator.osCommandPatterns`) -/

/-- Pattern `/(\||;|&|\x60|\$\(|\$\x7b)/` (pipe, semicolon, ampersand,
backquote, `$(`, `$` + opening brace). -/
def osPattern1 (s : List Char) : Bool :=
  s.any (fun c => c == '|' || c == ';' || c == '&' || c == Char.ofNat 96) ||
  containsSub s "$(".data || containsSub s "$\x7b".data

def osCmdWords : List (List Char) :=
  ["rm", "del", "format", "mkdir", "rmdir", "copy", "move", "exec", "eval",
   "system", "shell_exec"].map String.data

/-- Pattern `/(\b(rm|del|format|mkdir|rmdir|copy|move|exec|eval|system|shell_exec)\b)/i`. -/
def osPattern2 (s : List Char) : Bool := osCmdWords.any (containsWordCI s)

/-- Pattern `/(\.\.\/|\.\.\\)/`. -/
def osPattern3 (s : List Char) : Bool :=
  containsSub s "../".data || containsSub s "..\\".data

/-- Pattern `/(\b(sudo|su|chmod|chown)\b)/i`. -/
def osPattern4 (s : List Char) : Bool :=
  (["sudo", "su", "chmod", "chown"].map String.data).any (containsWordCI s)

def osCommandPatterns : List (List Char → Bool) :=
  [osPattern1, osPattern2, osPattern3, osPattern4]

/-! ## The XSS pattern set (`DataValidator.xssPatterns`)

These five regexes carry the `g` flag and are stored on the validator
instance, so `RegExp.prototype.test` is stateful: a successful test sets the
regex's `lastIndex` to the end of the match, a failed test resets it to 0,
and the next test starts searching at `lastIndex`.  A matcher is embedded as
a function giving, for each start position, the end position of the match
beginning there (if any). -/

/-- A `/g` regex body: match attempt at one start position, returning the
end position of the match if the attempt succeeds. -/
def GMatch : Type := List Char → Nat → Option Nat

/-- A case-insensitive literal: matches at `i` iff it occurs there. -/
def litCIAt (pat : List Char) : GMatch := fun s i =>
  if pfxCIAt s i pat then some (i + pat.length) else none

/-- Body `<TAG\b[^<]*(?:(?!<\/TAG>)<[^<]*)*<\/TAG>` (case-insensitive): an
opening `<TAG` with a word boundary after it, arbitrary content, and the
first subsequent `</TAG>`; the match ends at the end of that close tag. -/
def tagPairAt (openTag closeTag : List Char) : GMatch := fun s i =>
  if pfxCIAt s i openTag && !(isWordAt s (i + openTag.length)) then
    (List.range (s.length + 1)).findSome? fun q =>
      if q < i + openTag.length then none
      else if pfxCIAt s q closeTag then some (q + closeTag.length) else none
  else none

/-- Pattern `/<script\b[^<]*(?:(?!<\/script>)<[^<]*)*<\/script>/gi`. -/
def xssPat1 : GMatch := tagPairAt "<script".data "</script>".data

/-- Pattern `/<iframe\b[^<]*(?:(?!<\/iframe>)<[^<]*)*<\/iframe>/gi`. -/
def xssPat2 : GMatch := tagPairAt "<iframe".data "</iframe>".data

/-- Pattern `/javascript:/gi`. -/
def xssPat3 : GMatch := litCIAt "javascript:".data

/-- Pattern `/on\w+\s*=/gi`: `on`, at least one word character, optional
whitespace, `=`.  Since `\w`, `\s` and `=` are pairwise disjoint, the greedy
runs are forced and the match is determined by maximal runs. -/
def xssPat4 : GMatch := fun s i =>
  if pfxCIAt s i "on".data then
    let w := runLen s (i + 2) isWordChar
    if w == 0 then none
    else
      let b := i + 2 + w + runLen s (i + 2 + w) isJsSpace
      if charIs s b '=' then some (b + 1) else none
  else none

/-- Pattern `/<\s*(object|embed|applet|meta)\b/gi`. -/
def xssPat5 : GMatch := fun s i =>
  if charIs s i '<' then
    let t := i + 1 + runLen s (i + 1) isJsSpace
    (["object", "embed", "applet", "meta"].map String.data).findSome? fun kw =>
      if pfxCIAt s t kw && !(isWordAt s (t + kw.length)) then some (t + kw.length) else none
  else none

def xssPatterns : List GMatch := [xssPat1, xssPat2, xssPat3, xssPat4, xssPat5]

/-- Leftmost match of a `/g` regex body searching from start position `li`
(the regex's current `lastIndex`); result is the end of the match. -/
def gFirst (m : GMatch) (s : List Char) (li : Nat) : Option Nat :=
  (List.range (s.length + 1)).findSome? fun i =>
    if i < li then none else m s i

/-- `RegExp.prototype.test` on a `/g` regex with current `lastIndex = li`:
returns the boolean outcome and the regex's new `lastIndex` (end of the
match on success, 0 on failure). -/
def gTest (m : GMatch) (s : List Char) (li : Nat) : Bool × Nat :=
  match gFirst m s li with
  | some e => (true, e)
  | none => (false, 0)

/-- The fresh state of the five XSS regex objects: all `lastIndex = 0`,
as on a newly constructed `DataValidator`. -/
def xssInit : List Nat := [0, 0, 0, 0, 0]

/-! ## `DataValidator.performSecurityCheck` -/

/-- The `for (const pattern of …) { if (pattern.test(value)) return … }`
loop over the stateless (un-flagged) SQL / OS pattern lists. -/
def scanList (v : List Char) : List (List Char → Bool) → Bool
  | [] => false
  | p :: ps => if p v then true else scanList v ps

/-- The same loop over the stateful `/g` XSS regexes: each executed `test`
updates that regex's `lastIndex`; the loop returns at the first match,
leaving the not-yet-visited regexes' states untouched. -/
def scanXss (v : List Char) : List GMatch → List Nat → Bool × List Nat
  | [], lis => (false, lis)
  | _ :: _, [] => (false, [])
  | m :: ms, li :: lis =>
    let r := gTest m v li
    if r.1 then (true, r.2 :: lis)
    else
      let rest := scanXss v ms lis
      (rest.1, r.2 :: rest.2)

/-- The violation kinds reported by `performSecurityCheck`. -/
inductive Violation where
  | SQL_INJECTION
  | OS_COMMAND_INJECTION
  | XSS
deriving DecidableEq, Repr

/-- `DataValidator.performSecurityCheck(value, fieldName)`: tests the SQL
patterns, then the OS-command patterns, then the XSS patterns, returning at
the first matching pattern.  `none` is the safe result.  The `fieldName`
argument and the statistics / log side effects do not influence the result
and are not modelled; the `lastIndex` state of the five `/g`-flagged XSS
regexes is threaded explicitly. -/
def performSecurityCheck (value : String) (st : List Nat) : Option Violation × List Nat :=
  let v := value.data
  if scanList v sqlInjectionPatterns then (some .SQL_INJECTION, st)
  else if scanList v osCommandPatterns then (some .OS_COMMAND_INJECTION, st)
  else
    let r := scanXss v xssPatterns st
    (if r.1 then some .XSS else none, r.2)

/-! ## `InputValidator.sanitizeInput` (InputValidator.js)

`String.prototype.replace` with a `/g` regex and the empty replacement:
scan left to right, delete every (leftmost, non-overlapping) match, keep
everything else.  The fuel argument is a structural bound on the number of
scan steps; `fuel = s.length + 1` always suffices since every step advances
the position by at least one. -/

def stripFrom (m : GMatch) (s : List Char) : Nat → Nat → List Char
  | _, 0 => []
  | i, Nat.succ fuel =>
    match s[i]? with
    | none => []
    | some c =>
      match m s i with
      | some e => if i < e then stripFrom m s e fuel else c :: stripFrom m s (i + 1) fuel
      | none => c :: stripFrom m s (i + 1) fuel

/-- `s.replace(regex, '')` for a `/g` regex body `m`. -/
def replaceAllDel (m : GMatch) (s : List Char) : List Char :=
  stripFrom m s 0 (s.length + 1)

/-- The control-character class `/[\x00-\x1F\x7F]/`. -/
def isCtrl (c : Char) : Bool := c.toNat ≤ 0x1F || c.toNat == 0x7F

/-- Pattern `/on\w+\s*=\s*[^>\s]+/gi` (event-handler removal): `on`, a word
run, optional whitespace, `=`, optional whitespace, then at least one
character that is neither `>` nor whitespace.  The character classes of
adjacent greedy pieces are disjoint, so maximal runs determine the match. -/
def onHandlerAt : GMatch := fun s i =>
  if pfxCIAt s i "on".data then
    let w := runLen s (i + 2) isWordChar
    if w == 0 then none
    else
      let b := i + 2 + w + runLen s (i + 2 + w) isJsSpace
      if charIs s b '=' then
        let v0 := b + 1 + runLen s (b + 1) isJsSpace
        let v := runLen s v0 (fun ch => !(ch == '>') && !(isJsSpace ch))
        if v == 0 then none else some (v0 + v)
      else none
  else none

/-- `String.prototype.trim`. -/
def jsTrim (s : List Char) : List Char :=
  ((s.dropWhile isJsSpace).reverse.dropWhile isJsSpace).reverse

/-- `InputValidator.sanitizeInput(input)` (for string input): remove control
characters; remove complete `<script>`, `<iframe>`, `<object>` elements;
remove `on…=value` event handlers; remove the `javascript:` and
`vbscript:` schemes; trim.  Each step is a single left-to-right
`replace(/…/gi, '')` pass over the result of the previous step. -/
def sanitizeInput (input : String) : String :=
  let s1 := input.data.filter (fun c => !(isCtrl c))
  let s2 := replaceAllDel (tagPairAt "<script".data "</script>".data) s1
  let s3 := replaceAllDel (tagPairAt "<iframe".data "</iframe>".data) s2
  let s4 := replaceAllDel (tagPairAt "<object".data "</object>".data) s3
  let s5 := replaceAllDel onHandlerAt s4
  let s6 := replaceAllDel (litCIAt "javascript:".data) s5
  let s7 := replaceAllDel (litCIAt "vbscript:".data) s6
  String.mk (jsTrim s7)

/-! ## The missing `input-validator.js` collaborators -/

/-- Modelled from the spec: `InputValidator.sanitizeString` — the file
`src/js/security/input-validator.js` is not among the sources, only its
callers are.  Spec §4.4 step 8 describes the Sanitizer as "strip control
characters; remove complete `<script>`/`<iframe>`/`<object>` elements;
strip `on*=` attribute-style handlers; strip `javascript:`/`vbscript:` URL
schemes; trim whitespace", which is exactly the `sanitizeInput` pipeline. -/
def sanitizeString (s : String) : String := sanitizeInput s

/-- Modelled from the spec: `InputValidator.isValidString` — also from the
missing `input-validator.js`.  Spec §4.2 treats a value as an invalid
string when it is "empty/not a string"; inputs of this embedding are
always strings, so validity is non-emptiness. -/
def isValidString (s : String) : Bool := !(s.isEmpty)

/-! ## `ICCardValidator` (SecurityConfig.js) -/

/-- One entry of `ICCardValidator.cardPatterns`.  The `length` and
`regions` metadata play no role in validation and are omitted. -/
structure CardFormat where
  type : String
  pattern : String → Bool
  checksum : Bool
  issuer : String

/-- Anchored pattern `/^[0-9]{n}$/`. -/
def patDigits (n : Nat) (s : String) : Bool :=
  s.data.all Char.isDigit && s.length == n

/-- Anchored pattern `/^[0-9]{lo,hi}$/`. -/
def patDigitsBetween (lo hi : Nat) (s : String) : Bool :=
  s.data.all Char.isDigit && lo ≤ s.length && s.length ≤ hi

/-- `ICCardValidator.cardPatterns`, in object-literal insertion order
(which `Object.entries` preserves for these non-numeric keys). -/
def cardPatterns : List CardFormat :=
  [ ⟨"SUICA", patDigits 16, true, "JR東日本・関東私鉄"⟩,
    ⟨"ICOCA", patDigits 16, true, "JR西日本・関西私鉄"⟩,
    ⟨"MANACA", patDigits 16, true, "名古屋市交通局・名古屋鉄道"⟩,
    ⟨"TOICA", patDigits 16, true, "JR東海"⟩,
    ⟨"SUGOCA", patDigits 16, true, "JR九州・福岡市交通局"⟩,
    ⟨"KITACA", patDigits 16, true, "JR北海道・札幌市交通局"⟩,
    ⟨"HAYAKAKEN", patDigits 16, true, "福岡市交通局"⟩,
    ⟨"NIMOCA", patDigits 16, true, "西日本鉄道"⟩,
    ⟨"CORPORATE", patDigitsBetween 10 12, false, "各企業・団体"⟩,
    ⟨"STUDENT", patDigitsBetween 8 14, false, "各教育機関"⟩ ]

/-- `ICCardValidator.detectCardType`: the first format whose pattern
matches, or `null`. -/
def detectCardType (cardNumber : String) : Option CardFormat :=
  cardPatterns.find? (fun config => config.pattern cardNumber)

/-- One doubling step of the Luhn loop: `digit *= 2; if (digit > 9) digit -= 9`. -/
def luhnDouble (d : Nat) : Nat := if d * 2 > 9 then d * 2 - 9 else d * 2

/-- What one loop iteration adds to `sum` for the current digit, given the
current `alternate` flag. -/
def luhnTerm (alternate : Bool) (d : Nat) : Nat :=
  if alternate then luhnDouble d else d

/-- The Luhn accumulation over the digits in right-to-left order with the
`alternate` flag (`false` at the rightmost digit). -/
def luhnSum : List Nat → Bool → Nat
  | [], _ => 0
  | d :: rest, alternate => luhnTerm alternate d + luhnSum rest (!alternate)

/-- `ICCardValidator.validateChecksum(cardNumber, cardType)`: Luhn over the
digits processed right to left, accepting iff the sum is divisible by 10.
(The `cardType` argument is unused by the source.) -/
def validateChecksum (cardNumber : String) : Bool :=
  luhnSum (cardNumber.data.reverse.map (fun c => c.toNat - 48)) false % 10 == 0

/-- The value of the `alternate` flag when the loop, started with flag
`alt`, reaches position `j` of its list. -/
def luhnAlt (alt : Bool) (j : Nat) : Bool := if j % 2 = 0 then alt else !alt

/-- The standard Luhn algorithm as the spec words it: double every second
digit counting from the rightmost digit, subtract 9 from doubled values
exceeding 9, sum all the digits, accept iff the sum is divisible by 10.
(Spec-shaped restatement, stated positionally over the reversed digit
list, to be compared against `validateChecksum`.) -/
def luhnStandardSpec (cardNumber : String) : Bool :=
  let digits := cardNumber.data.map (fun c => c.toNat - 48)
  let transformed := digits.reverse.mapIdx fun j d =>
    if j % 2 = 1 then (if d * 2 > 9 then d * 2 - 9 else d * 2) else d
  transformed.sum % 10 == 0

/-- `'*'.repeat(count)`: ECMAScript throws a `RangeError` for a negative
count — modelled as `none`. -/
def jsRepeatStar (count : Int) : Option (List Char) :=
  if count < 0 then none else some (List.replicate count.toNat '*')

/-- `ICCardValidator.maskCardNumber`: `'****'` below 4 characters, else
first four + `'*'.repeat(length - 8)` + last four.  For lengths 4–7 the
repeat count is negative and the call throws (`none`). -/
def maskCardNumber (cardNumber : String) : Option String :=
  if cardNumber.length < 4 then some "****"
  else
    (jsRepeatStar ((cardNumber.length : Int) - 8)).map fun middle =>
      String.mk (cardNumber.data.take 4 ++ middle ++
        cardNumber.data.drop (cardNumber.length - 4))

/-- Anchored pattern `/^\d+$/`. -/
def allDigits1 (s : String) : Bool := !(s.isEmpty) && s.data.all Char.isDigit

/-- The outcomes of `ICCardValidator.validateCardNumber`, keeping the
fields that the claims inspect.  `VALIDATION_ERROR` is the catch-all
branch, reached when an exception (such as the `RangeError` thrown by
`maskCardNumber` on a 4–7 character number) escapes the `try` block. -/
inductive CardResult where
  | INVALID_INPUT
  | INVALID_LENGTH (actualLength : Nat)
  | INVALID_FORMAT
  | UNKNOWN_CARD_TYPE (number : String)
  | INVALID_CHECKSUM (cardType : String)
  | VALID_CARD (cardType : String) (issuer : String) (number : String) (rawNumber : String)
  | VALIDATION_ERROR
deriving DecidableEq, Repr

/-- The masked number carried by a `validateCardNumber` result (the
`number` property of the returned object), when present. -/
def CardResult.maskedNumber : CardResult → Option String
  | .UNKNOWN_CARD_TYPE n => some n
  | .VALID_CARD _ _ n _ => some n
  | _ => none

/-- `ICCardValidator.validateCardNumber`: sanitize, validity/length/digit
gates, card-type detection, optional Luhn checksum, masking.  Statistics
and logging are not modelled. -/
def validateCardNumber (cardNumber : String) : CardResult :=
  let sanitizedNumber := sanitizeString cardNumber
  if !(isValidString sanitizedNumber) then .INVALID_INPUT
  else if sanitizedNumber.length < 4 || sanitizedNumber.length > 20 then
    .INVALID_LENGTH sanitizedNumber.length
  else if !(allDigits1 sanitizedNumber) then .INVALID_FORMAT
  else
    match detectCardType sanitizedNumber with
    | none =>
      match maskCardNumber sanitizedNumber with
      | none => .VALIDATION_ERROR
      | some masked => .UNKNOWN_CARD_TYPE masked
    | some cardType =>
      let checksumValid := if cardType.checksum then validateChecksum sanitizedNumber else true
      if !checksumValid then .INVALID_CHECKSUM cardType.type
      else
        match maskCardNumber sanitizedNumber with
        | none => .VALIDATION_ERROR
        | some masked => .VALID_CARD cardType.type cardType.issuer masked sanitizedNumber

/-! ## `DataValidator` field rules and their anchored patterns -/

/-- Hiragana range `ぁ`–`ん` (U+3041–U+3093). -/
def isHiragana (c : Char) : Bool := 0x3041 ≤ c.toNat && c.toNat ≤ 0x3093

/-- Katakana range `ァ`–`ヶ` (U+30A1–U+30F6). -/
def isKatakana (c : Char) : Bool := 0x30A1 ≤ c.toNat && c.toNat ≤ 0x30F6

/-- CJK ideograph range `一`–`龠` (U+4E00–U+9FA0). -/
def isKanji (c : Char) : Bool := 0x4E00 ≤ c.toNat && c.toNat ≤ 0x9FA0

/-- The prolonged-sound mark `ー` (U+30FC). -/
def isChoon (c : Char) : Bool := c.toNat == 0x30FC

/-- Anchored character-class repetition `/^[…]{lo,hi}$/`. -/
def patClassBetween (cls : Char → Bool) (lo hi : Nat) (s : String) : Bool :=
  s.data.all cls && lo ≤ s.length && s.length ≤ hi

/-- `/^[A-Za-z0-9]{6,12}$/` (employeeId). -/
def patEmployeeId (s : String) : Bool :=
  patClassBetween (fun c => c.isAlpha || c.isDigit) 6 12 s

/-- The class `[ぁ-んァ-ヶー一-龠a-zA-Z\s]` (employeeName). -/
def jpNameChar (c : Char) : Bool :=
  isHiragana c || isKatakana c || isChoon c || isKanji c || c.isAlpha || isJsSpace c

/-- `/^[ぁ-んァ-ヶー一-龠a-zA-Z\s]{1,50}$/` (employeeName). -/
def patEmployeeName (s : String) : Bool := patClassBetween jpNameChar 1 50 s

/-- The class `[ぁ-んァ-ヶー一-龠a-zA-Z0-9\s\-]` (department, transportationProvider). -/
def jpTextChar (c : Char) : Bool := jpNameChar c || c.isDigit || c == '-'

/-- `/^[ぁ-んァ-ヶー一-龠a-zA-Z0-9\s\-]{1,30}$/` (department). -/
def patDepartment (s : String) : Bool := patClassBetween jpTextChar 1 30 s

def emailLocalChar (c : Char) : Bool :=
  c.isAlpha || c.isDigit || c == '.' || c == '_' || c == '%' || c == '+' || c == '-'

def emailDomainChar (c : Char) : Bool := c.isAlpha || c.isDigit || c == '.' || c == '-'

/-- `/^[a-zA-Z0-9._%+-]+@[a-zA-Z0-9.-]+\.[a-zA-Z]{2,}$/` (email): a
nonempty local part, `@`, a nonempty domain part, a final dot, and at
least two letters to the end. -/
def patEmail (s : String) : Bool :=
  let l := s.data
  (List.range l.length).any fun p =>
    charIs l p '@' && 1 ≤ p && allBetween l 0 p emailLocalChar &&
    ((List.range l.length).any fun q =>
      p + 2 ≤ q && charIs l q '.' && allBetween l (p + 1) q emailDomainChar &&
      q + 3 ≤ l.length && allBetween l (q + 1) l.length (fun c => c.isAlpha))

def phoneChar (c : Char) : Bool :=
  c.isDigit || c == '-' || c == '(' || c == ')' || isJsSpace c

/-- `/^[0-9\-\(\)\s]{10,15}$/` (phoneNumber). -/
def patPhone (s : String) : Bool := patClassBetween phoneChar 10 15 s

/-- `/^(SUICA|PASMO|ICOCA|MANACA|TOICA|SUGOCA|KITACA|HAYAKAKEN|NIMOCA|CORPORATE|STUDENT)$/`. -/
def patCardType (s : String) : Bool :=
  ["SUICA", "PASMO", "ICOCA", "MANACA", "TOICA", "SUGOCA", "KITACA", "HAYAKAKEN",
   "NIMOCA", "CORPORATE", "STUDENT"].any (fun t => s == t)

/-- `/^\d{4}-\d{2}-\d{2}$/` (lossDate). -/
def patLossDate (s : String) : Bool :=
  match s.data with
  | [y1, y2, y3, y4, h1, m1, m2, h2, d1, d2] =>
    y1.isDigit && y2.isDigit && y3.isDigit && y4.isDigit && h1 == '-' &&
    m1.isDigit && m2.isDigit && h2 == '-' && d1.isDigit && d2.isDigit
  | _ => false

/-- `/^([01]?[0-9]|2[0-3]):[0-5][0-9]$/` (lossTime): the hour is one digit,
or `0`/`1` plus a digit, or `2` plus `0`–`3`; minutes are `[0-5][0-9]`. -/
def patLossTime (s : String) : Bool :=
  match s.data with
  | [h, colon, m1, m2] =>
    h.isDigit && colon == ':' && m1.isDigit && m1.toNat ≤ 53 && m2.isDigit
  | [h1, h2, colon, m1, m2] =>
    ((h1 == '0' || h1 == '1') && h2.isDigit ||
      h1 == '2' && h2.isDigit && h2.toNat ≤ 51) &&
    colon == ':' && m1.isDigit && m1.toNat ≤ 53 && m2.isDigit
  | _ => false

def locChar (c : Char) : Bool := jpTextChar c || c == '(' || c == ')'

/-- `/^[ぁ-んァ-ヶー一-龠a-zA-Z0-9\s\-\(\)]{1,100}$/` (lossLocation). -/
def patLossLocation (s : String) : Bool := patClassBetween locChar 1 100 s

/-- `/^[ぁ-んァ-ヶー一-龠a-zA-Z0-9\s\-]{1,50}$/` (transportationProvider). -/
def patTransportationProvider (s : String) : Bool := patClassBetween jpTextChar 1 50 s

/-- `/^(DRAFT|SUBMITTED|PROCESSING|COMPLETED|CANCELLED)$/` (reportStatus). -/
def patReportStatus (s : String) : Bool :=
  ["DRAFT", "SUBMITTED", "PROCESSING", "COMPLETED", "CANCELLED"].any (fun t => s == t)

/-- `/^(LOW|MEDIUM|HIGH|URGENT)$/` (priority). -/
def patPriority (s : String) : Bool :=
  ["LOW", "MEDIUM", "HIGH", "URGENT"].any (fun t => s == t)

/-- One entry of `DataValidator.validationRules` (the human-readable
`description` strings are used only in messages and are omitted). -/
structure FieldRule where
  pattern : Option (String → Bool)
  maxLength : Nat
  required : Bool
  sanitize : Bool

/-- `DataValidator.validationRules`, in object-literal order. -/
def validationRules : List (String × FieldRule) :=
  [ ("employeeId", ⟨some patEmployeeId, 12, true, true⟩),
    ("employeeName", ⟨some patEmployeeName, 50, true, true⟩),
    ("department", ⟨some patDepartment, 30, true, true⟩),
    ("email", ⟨some patEmail, 100, false, true⟩),
    ("phoneNumber", ⟨some patPhone, 15, false, true⟩),
    ("icCardNumber", ⟨some (patDigitsBetween 4 20), 20, true, true⟩),
    ("cardType", ⟨some patCardType, 20, true, true⟩),
    ("lossDate", ⟨some patLossDate, 10, true, true⟩),
    ("lossTime", ⟨some patLossTime, 5, false, true⟩),
    ("lossLocation", ⟨some patLossLocation, 100, true, true⟩),
    ("transportationProvider", ⟨some patTransportationProvider, 50, false, true⟩),
    ("reportStatus", ⟨some patReportStatus, 20, true, true⟩),
    ("priority", ⟨some patPriority, 10, false, true⟩),
    ("description", ⟨none, 500, false, true⟩),
    ("notes", ⟨none, 1000, false, true⟩) ]

/-- `this.validationRules[fieldName]` (as used by `validateField`). -/
def lookupRule (fieldName : String) : Option FieldRule :=
  validationRules.lookup fieldName

/-! ## `DataValidator.validateField` and `DataValidator.validateObject` -/

/-- The values `validateField` / `validateObject` distinguish: `null`,
`undefined`, or a string (other runtime values are out of scope here;
they would be coerced by `String(value)`). -/
inductive JsVal where
  | null
  | undefined
  | str (s : String)
deriving DecidableEq, Repr

/-- The per-field outcomes of `validateField`, with the fields the claims
inspect.  `ok sv (some orig)` is the success object
`{valid: true, sanitizedValue: sv, originalValue: orig}`; `ok "" none` is
the early `{valid: true, sanitizedValue: ''}` for an absent optional
value.  The uncaught-exception branch (`VALIDATION_ERROR`) is unreachable
in this embedding and is omitted. -/
inductive ValidationResult where
  | UNKNOWN_FIELD
  | REQUIRED_FIELD
  | SECURITY_VIOLATION (violationType : Violation)
  | EXCESSIVE_LENGTH (actualLength maxLength : Nat)
  | INVALID_FORMAT
  | ok (sanitizedValue : String) (originalValue : Option String)
deriving DecidableEq, Repr

/-- The `sanitizedValue` property of a field result, when present. -/
def ValidationResult.sanitizedValue? : ValidationResult → Option String
  | .ok sv _ => some sv
  | _ => none

/-- The `valid` flag of a field result. -/
def isOkResult : ValidationResult → Bool
  | .ok _ _ => true
  | _ => false

/-- `DataValidator.validateField(fieldName, value, options)`: unknown
field, null/required, security scan, length, required-after-trim, pattern,
sanitize — in this order, each failing check returning immediately.
Statistics and logging are not modelled; the XSS regex state is threaded
as in `performSecurityCheck`. -/
def validateField (st : List Nat) (fieldName : String) (value : JsVal)
    (allowEmpty : Bool) : ValidationResult × List Nat :=
  match lookupRule fieldName with
  | none => (.UNKNOWN_FIELD, st)
  | some rule =>
    match value with
    | .null | .undefined =>
      if rule.required && !allowEmpty then (.REQUIRED_FIELD, st)
      else (.ok "" none, st)
    | .str stringValue =>
      let sec := performSecurityCheck stringValue st
      match sec.1 with
      | some v => (.SECURITY_VIOLATION v, sec.2)
      | none =>
        if stringValue.length > rule.maxLength then
          (.EXCESSIVE_LENGTH stringValue.length rule.maxLength, sec.2)
        else if rule.required && (jsTrim stringValue.data).length == 0 then
          (.REQUIRED_FIELD, sec.2)
        else if (match rule.pattern with
                 | some pat => !((jsTrim stringValue.data).length == 0) && !(pat stringValue)
                 | none => false) then
          (.INVALID_FORMAT, sec.2)
        else
          (.ok (if rule.sanitize then sanitizeString stringValue else stringValue)
            (some stringValue), sec.2)

/-- An entry of `validateObject`'s `errors` array: either a missing
required field or a failed field result spread into the entry. -/
inductive ObjectError where
  | MISSING_REQUIRED_FIELD (field : String)
  | fieldError (field : String) (result : ValidationResult)
deriving DecidableEq, Repr

/-- `!(field in data) || data[field] === null || data[field] === undefined`. -/
def absentOrNull (data : List (String × JsVal)) (f : String) : Bool :=
  match data.lookup f with
  | none => true
  | some .null => true
  | some .undefined => true
  | some (.str _) => false

/-- The state accumulated by `validateObject`'s per-field loop. -/
structure FieldsAcc where
  fieldResults : List (String × ValidationResult)
  sanitizedData : List (String × String)
  errors : List ObjectError
  st : List Nat
deriving DecidableEq, Repr

/-- The `for (const [fieldName, value] of Object.entries(data))` loop of
`validateObject`: validate each present field, collect its result, its
sanitized value on success, and an error entry on failure. -/
def validateFields (st : List Nat) : List (String × JsVal) → FieldsAcc
  | [] => ⟨[], [], [], st⟩
  | (fieldName, value) :: rest =>
    let r := validateField st fieldName value false
    let acc := validateFields r.2 rest
    { fieldResults := (fieldName, r.1) :: acc.fieldResults
      sanitizedData :=
        match r.1.sanitizedValue? with
        | some sv => (fieldName, sv) :: acc.sanitizedData
        | none => acc.sanitizedData
      errors :=
        if isOkResult r.1 then acc.errors
        else .fieldError fieldName r.1 :: acc.errors
      st := acc.st }

/-- The aggregate result of `validateObject`.  The `dataHash` property (a
digest of the serialized `sanitizedData`, computed by the hash manager) is
independent of the validation outcome and is not modelled. -/
structure ObjectValidationResult where
  valid : Bool
  errors : List ObjectError
  sanitizedData : List (String × String)
  fieldResults : List (String × ValidationResult)
deriving DecidableEq, Repr

/-- `DataValidator.validateObject(data, requiredFields)`: record one
`MISSING_REQUIRED_FIELD` error per required name absent or null/undefined
in `data`, then run `validateField` over every entry of `data`; `valid`
iff no error of either kind was recorded. -/
def validateObject (st : List Nat) (data : List (String × JsVal))
    (requiredFields : List String) : ObjectValidationResult × List Nat :=
  let missing := (requiredFields.filter (fun f => absentOrNull data f)).map
    ObjectError.MISSING_REQUIRED_FIELD
  let acc := validateFields st data
  ({ valid := missing.isEmpty && acc.errors.isEmpty
     errors := missing ++ acc.errors
     sanitizedData := acc.sanitizedData
     fieldResults := acc.fieldResults }, acc.st)

/-! ## Theorems -/

/-- The early-return loop over a stateless pattern list succeeds exactly
when some pattern in the list matches. -/
theorem scanList_eq_any (v : List Char) :
    ∀ ps : List (List Char → Bool), scanList v ps = ps.any (fun p => p v)
  | [] => rfl
  | p :: ps => by
    by_cases h : p v <;> simp [scanList, h, scanList_eq_any v ps]

/-- From the fresh all-zero state, the stateful XSS loop succeeds exactly
when some XSS regex has a match somewhere in the string. -/
theorem scanXss_fst_zeros (v : List Char) :
    ∀ ms : List GMatch,
      (scanXss v ms (List.replicate ms.length 0)).1 =
        ms.any (fun m => (gFirst m v 0).isSome)
  | [] => rfl
  | m :: ms => by
    have ih := scanXss_fst_zeros v ms
    cases h : gFirst m v 0 with
    | some e => simp [scanXss, gTest, h]
    | none => simp [scanXss, gTest, h, ih]

/-- C1: for every input string, `performSecurityCheck` (on a fresh
validator) evaluates the SQL-injection set first, then the OS-command set,
then the XSS set, and reports exactly the violation kind of the first
pattern set containing a matching pattern — or the safe result (`none`)
when no pattern of any set matches. -/
theorem c1_securityCheck_priority_order (value : String) :
    (performSecurityCheck value xssInit).1 =
      if sqlInjectionPatterns.any (fun p => p value.data) then some Violation.SQL_INJECTION
      else if osCommandPatterns.any (fun p => p value.data) then some Violation.OS_COMMAND_INJECTION
      else if xssPatterns.any (fun m => (gFirst m value.data 0).isSome) then some Violation.XSS
      else none := by
  have hx : (scanXss value.data xssPatterns xssInit).1 =
      xssPatterns.any (fun m => (gFirst m value.data 0).isSome) :=
    scanXss_fst_zeros value.data xssPatterns
  simp only [performSecurityCheck, scanList_eq_any]
  split_ifs with h1 h2 h3 h4 <;> simp_all

/-- C7: the security scan is *not* deterministic across successive calls:
the XSS regexes carry the `g` flag, so a matching `test` leaves a nonzero
`lastIndex` in the validator's regex objects.  On the input `"onclick="`
the first scan reports XSS while the immediately following scan of the very
same string reports safe. -/
theorem c7_securityCheck_stateful :
    (performSecurityCheck "onclick=" xssInit).1 = some Violation.XSS ∧
    (performSecurityCheck "onclick="
        (performSecurityCheck "onclick=" xssInit).2).1 = none := by
  constructor <;> decide


/-- C8: sanitization is *not* idempotent.  Removing the inner occurrence of
`javascript:` from `"javajavascript:script:"` splices the surrounding text
into a fresh `javascript:`, which only a second pass removes. -/
theorem c8_sanitize_not_idempotent :
    sanitizeInput "javajavascript:script:" = "javascript:" ∧
    sanitizeInput (sanitizeInput "javajavascript:script:") = "" ∧
    sanitizeInput (sanitizeInput "javajavascript:script:") ≠
      sanitizeInput "javajavascript:script:" := by
  refine ⟨by decide, by decide, by decide⟩

/-- C6: `maskCardNumber` masks long numbers as claimed and returns the
constant mask below 4 characters, but a 4-character number does *not*
collapse to the constant mask: `'*'.repeat(4 - 8)` throws a `RangeError`
(`none`), contradicting the claimed behaviour for all numbers shorter
than 8 digits. -/
theorem c6_mask_rangeError_on_4_to_7 :
    maskCardNumber "1234567890123456" = some "1234********3456" ∧
    maskCardNumber "123" = some "****" ∧
    maskCardNumber "1234" = none ∧
    maskCardNumber "1234567" = none ∧
    maskCardNumber "12345678" = some "12345678" := by
  refine ⟨by decide, by decide, by decide, by decide, by decide⟩

/-- C5: `"1234"` is all digits with length in `[4, 20]` and matches no
card format, yet `validateCardNumber` returns `VALIDATION_ERROR` — the
`UNKNOWN_CARD_TYPE` branch calls `maskCardNumber`, whose
`'*'.repeat(-4)` throws, and the `catch` turns that into
`VALIDATION_ERROR`.  For a 15-digit no-match input (where masking does not
throw) the claimed `UNKNOWN_CARD_TYPE` is produced. -/
theorem c5_unknown_type_masked_by_crash :
    allDigits1 "1234" = true ∧
    (4 ≤ "1234".length ∧ "1234".length ≤ 20) ∧
    (detectCardType "1234").isNone = true ∧
    validateCardNumber "1234" = CardResult.VALIDATION_ERROR ∧
    validateCardNumber "123456789012345" =
      CardResult.UNKNOWN_CARD_TYPE "1234*******2345" := by
  refine ⟨by decide, ⟨by decide, by decide⟩, by decide, by decide, by decide⟩

/-- C9 counterexample: the classification of `"1234567890123456"` carries
no masked number at all (its `number` property is absent), so it cannot
have `maskedNumber = "1234********3456"` as claimed. -/
theorem c9_classification_has_no_maskedNumber :
    (validateCardNumber "1234567890123456").maskedNumber = none := by decide

/-- C9 (amended): `"1234567890123456"` fails the Luhn checksum (sum 64),
so classification returns the `INVALID_CHECKSUM` error carrying
`cardType = "SUICA"` and no masked number; `maskCardNumber` itself does
produce `"1234********3456"` for this input. -/
theorem c9_invalid_checksum_suica :
    validateCardNumber "1234567890123456" = CardResult.INVALID_CHECKSUM "SUICA" ∧
    maskCardNumber "1234567890123456" = some "1234********3456" := by
  refine ⟨by decide, by decide⟩

/-! ### Character facts -/

theorem char_eq_of_toNat_eq {c d : Char} (h : c.toNat = d.toNat) : c = d :=
  Char.ext (UInt32.ext h)

theorem isDigit_toNat {c : Char} (h : c.isDigit = true) : 48 ≤ c.toNat ∧ c.toNat ≤ 57 := by
  simp only [Char.isDigit, ge_iff_le, Bool.and_eq_true, decide_eq_true_eq] at h
  exact ⟨h.1, h.2⟩

theorem toLower_digit {c : Char} (h : c.isDigit = true) : c.toLower = c := by
  have hb := isDigit_toNat h
  unfold Char.toLower
  rw [if_neg]
  intro hc
  omega

theorem beq_false_of_toNat_ne {a b : Char} (h : a.toNat ≠ b.toNat) : (a == b) = false := by
  rw [beq_eq_false_iff_ne]
  intro he
  subst he
  exact h rfl

theorem isJsSpace_digit {c : Char} (h : c.isDigit = true) : isJsSpace c = false := by
  have hb := isDigit_toNat h
  simp only [isJsSpace, Bool.or_eq_false_iff, beq_eq_false_iff_ne, ne_eq,
    Bool.and_eq_false_iff, decide_eq_false_iff_not]
  omega

/-! ### Luhn lemmas -/

theorem luhnAlt_succ (alt : Bool) (j : Nat) : luhnAlt alt (j + 1) = luhnAlt (!alt) j := by
  rcases Nat.mod_two_eq_zero_or_one j with h | h
  · have h1 : (j + 1) % 2 = 1 := by omega
    simp [luhnAlt, h, h1]
  · have h1 : (j + 1) % 2 = 0 := by omega
    simp [luhnAlt, h, h1]

/-- The stateful `alternate` loop equals the positional description: the
digit at position `j` contributes `luhnTerm (luhnAlt alt j)` of itself. -/
theorem luhnSum_eq_mapIdx : ∀ (l : List Nat) (alt : Bool),
    luhnSum l alt = (l.mapIdx fun j d => luhnTerm (luhnAlt alt j) d).sum
  | [], _ => rfl
  | d :: l, alt => by
    have ih := luhnSum_eq_mapIdx l (!alt)
    have hf : (fun (j : Nat) (d2 : Nat) => luhnTerm (luhnAlt alt (j + 1)) d2)
        = fun (j : Nat) (d2 : Nat) => luhnTerm (luhnAlt (!alt) j) d2 := by
      funext j d2
      rw [luhnAlt_succ]
    simp only [luhnSum, List.mapIdx_cons, List.sum_cons, hf, ← ih]
    simp [luhnAlt]

/-- Changing the entry at position `j` moves the Luhn sum (mod 10) by the
difference of the transformed values. -/
theorem luhnSum_set : ∀ (l : List Nat) (j : Nat) (e : Nat) (alt : Bool) (h : j < l.length),
    ((luhnSum (l.set j e) alt : ℕ) : ZMod 10) =
      ((luhnSum l alt : ℕ) : ZMod 10) +
        ((luhnTerm (luhnAlt alt j) e : ℕ) : ZMod 10) -
        ((luhnTerm (luhnAlt alt j) (l.get ⟨j, h⟩) : ℕ) : ZMod 10)
  | d :: l, 0, e, alt, _ => by
    simp only [List.set_cons_zero, luhnSum, List.get, luhnAlt, Nat.zero_mod,
      eq_self_iff_true, if_true, Nat.cast_add]
    ring
  | d :: l, j + 1, e, alt, h => by
    have hlt : j < l.length := by simpa using h
    simp only [List.set_cons_succ, luhnSum, Nat.cast_add, List.get, luhnAlt_succ]
    rw [luhnSum_set l j e (!alt) hlt]
    ring

/-- On values below 10, `luhnTerm b` is injective modulo 10 (for `b = true`
it is the doubling permutation of the digits). -/
theorem luhnTerm_cast_ne : ∀ (b : Bool) (x y : Fin 10), x ≠ y →
    ((luhnTerm b x.val : ℕ) : ZMod 10) ≠ ((luhnTerm b y.val : ℕ) : ZMod 10) := by
  decide

/-- Setting position `i` and reversing is reversing and setting the
mirrored position. -/
theorem set_reverse {α : Type} (l : List α) (i : Nat) (hi : i < l.length) (e : α) :
    (l.set i e).reverse = l.reverse.set (l.length - 1 - i) e := by
  apply List.ext_getElem?
  intro n
  by_cases hn : n < l.length
  · rw [List.getElem?_reverse (by simpa using hn)]
    rw [List.length_set]
    rw [List.getElem?_set, List.getElem?_set]
    rw [List.getElem?_reverse (by simpa using hn)]
    rw [List.length_reverse]
    by_cases hin : i = l.length - 1 - n
    · rw [if_pos hin, if_pos (by omega)]
      rw [if_pos (by omega), if_pos (by omega)]
    · rw [if_neg hin, if_neg (by omega)]
  · rw [List.getElem?_eq_none (by simpa using (by omega : l.length ≤ n)),
      List.getElem?_eq_none (by simp; omega)]

/-! ### The sanitizer leaves all-digit strings unchanged -/

theorem stripFrom_of_none {m : GMatch} {s : List Char} (hm : ∀ j, m s j = none) :
    ∀ (fuel i : Nat), s.length - i < fuel → stripFrom m s i fuel = s.drop i
  | 0, _, h => absurd h (by omega)
  | fuel + 1, i, h => by
    rw [stripFrom]
    cases hg : s[i]? with
    | none =>
      rw [List.drop_eq_nil_of_le (List.getElem?_eq_none_iff.mp hg)]
    | some c =>
      have hi : i < s.length := by
        by_contra hh
        rw [List.getElem?_eq_none (by omega)] at hg
        cases hg
      rw [hm i, stripFrom_of_none hm fuel (i + 1) (by omega),
        List.drop_eq_getElem_cons hi]
      have hc : s[i] = c := by
        rw [List.getElem?_eq_getElem hi] at hg
        exact Option.some.inj hg
      rw [hc]

theorem replaceAllDel_of_none {m : GMatch} {s : List Char} (hm : ∀ j, m s j = none) :
    replaceAllDel m s = s := by
  unfold replaceAllDel
  rw [stripFrom_of_none hm (s.length + 1) 0 (by omega)]
  exact List.drop_zero s

/-- A case-insensitive pattern whose first character does not fold to a
digit cannot occur in an all-digit string. -/
theorem pfxCIAt_false_of_digits {s : List Char} (hs : s.all Char.isDigit = true)
    {p : Char} (hp : p.toLower.toNat < 48 ∨ 57 < p.toLower.toNat) (i : Nat) (ps : List Char) :
    pfxCIAt s i (p :: ps) = false := by
  unfold pfxCIAt
  cases hd : s.drop i with
  | nil => rfl
  | cons c cs =>
    have hc : c ∈ s := List.drop_subset _ _ (hd ▸ List.mem_cons_self c cs)
    have hcd : c.isDigit = true := List.all_eq_true.mp hs c hc
    have hb := isDigit_toNat hcd
    simp only [pfxCI, ciEq, toLower_digit hcd]
    rw [beq_false_of_toNat_ne (by omega)]
    simp

theorem tagPairAt_digits_none {s : List Char} (hs : s.all Char.isDigit = true)
    (rest ct : List Char) (j : Nat) :
    tagPairAt ('<' :: rest) ct s j = none := by
  unfold tagPairAt
  rw [pfxCIAt_false_of_digits hs (by decide) j rest]
  simp

theorem litCIAt_digits_none {s : List Char} (hs : s.all Char.isDigit = true)
    {p : Char} (hp : p.toLower.toNat < 48 ∨ 57 < p.toLower.toNat) (ps : List Char) (j : Nat) :
    litCIAt (p :: ps) s j = none := by
  unfold litCIAt
  rw [pfxCIAt_false_of_digits hs hp j ps]
  simp

theorem onHandlerAt_digits_none {s : List Char} (hs : s.all Char.isDigit = true) (j : Nat) :
    onHandlerAt s j = none := by
  unfold onHandlerAt
  have h2 : "on".data = 'o' :: "n".data := rfl
  rw [h2, pfxCIAt_false_of_digits hs (by decide) j]
  simp

theorem dropWhile_of_all_not {p : Char → Bool} :
    ∀ {l : List Char}, (∀ c ∈ l, p c = false) → l.dropWhile p = l
  | [], _ => rfl
  | c :: cs, h => by
    rw [List.dropWhile_cons, h c (List.mem_cons_self c cs)]
    simp

theorem jsTrim_of_digits {l : List Char} (hs : l.all Char.isDigit = true) :
    jsTrim l = l := by
  have hall : ∀ c ∈ l, isJsSpace c = false := fun c hc =>
    isJsSpace_digit (List.all_eq_true.mp hs c hc)
  unfold jsTrim
  rw [dropWhile_of_all_not hall]
  rw [dropWhile_of_all_not (fun c hc => hall c (List.mem_reverse.mp hc))]
  exact List.reverse_reverse l

theorem string_mk_data (s : String) : String.mk s.data = s := by
  cases s
  rfl

theorem string_length_data (s : String) : s.length = s.data.length := by
  cases s
  rfl

/-- Sanitization is the identity on all-digit strings: no control
characters, and every removal pattern starts with a character (`<`, `o`,
`j`, `v`) that cannot occur. -/
theorem sanitizeInput_digits {s : String} (hs : s.data.all Char.isDigit = true) :
    sanitizeInput s = s := by
  simp only [sanitizeInput]
  have h1 : s.data.filter (fun c => !(isCtrl c)) = s.data := by
    apply List.filter_eq_self.mpr
    intro a ha
    have hb := isDigit_toNat (List.all_eq_true.mp hs a ha)
    simp only [isCtrl, Bool.not_eq_eq_eq_not, Bool.not_true, Bool.or_eq_false_iff,
      decide_eq_false_iff_not, beq_eq_false_iff_ne, ne_eq]
    omega
  rw [h1]
  rw [replaceAllDel_of_none (tagPairAt_digits_none hs _ _)]
  rw [replaceAllDel_of_none (tagPairAt_digits_none hs _ _)]
  rw [replaceAllDel_of_none (tagPairAt_digits_none hs _ _)]
  rw [replaceAllDel_of_none (onHandlerAt_digits_none hs)]
  rw [replaceAllDel_of_none (litCIAt_digits_none hs (by decide) _)]
  rw [replaceAllDel_of_none (litCIAt_digits_none hs (by decide) _)]
  rw [jsTrim_of_digits hs]

/-! ### Card classification lemmas -/

theorem detectCardType_digits16 {s : String} (h : patDigits 16 s = true) :
    detectCardType s = some ⟨"SUICA", patDigits 16, true, "JR東日本・関東私鉄"⟩ := by
  simp [detectCardType, cardPatterns, List.find?, h]

/-- `validateChecksum` computes exactly the spec's standard Luhn check. -/
theorem validateChecksum_eq_spec (s : String) : validateChecksum s = luhnStandardSpec s := by
  have hfun : (fun (j : Nat) (d : Nat) => luhnTerm (luhnAlt false j) d)
      = fun (j : Nat) (d : Nat) =>
          if j % 2 = 1 then (if d * 2 > 9 then d * 2 - 9 else d * 2) else d := by
    funext j d
    rcases Nat.mod_two_eq_zero_or_one j with h | h <;>
      simp [luhnAlt, luhnTerm, luhnDouble, h]
  simp only [validateChecksum, luhnStandardSpec]
  rw [luhnSum_eq_mapIdx, hfun, List.map_reverse]

/-- Substituting a different digit character flips the Luhn check. -/
theorem validateChecksum_set_false {s : String} {i : Nat} {c c' : Char}
    (hd : s.data.all Char.isDigit = true) (hl : s.length = 16)
    (hcs : validateChecksum s = true)
    (hg : s.data[i]? = some c) (hc' : c'.isDigit = true) (hne : c' ≠ c) :
    validateChecksum (String.mk (s.data.set i c')) = false := by
  have hld : s.data.length = 16 := by rw [← string_length_data]; exact hl
  have hi : i < s.data.length := by
    by_contra hh
    rw [List.getElem?_eq_none (by omega)] at hg
    cases hg
  have hcdig : c.isDigit = true := by
    refine List.all_eq_true.mp hd c ?_
    have hmem := List.getElem_mem (l := s.data) (n := i) hi
    rw [List.getElem?_eq_getElem hi] at hg
    rw [Option.some.inj hg] at hmem
    exact hmem
  have hbc := isDigit_toNat hcdig
  have hbc' := isDigit_toNat hc'
  have hvne : c'.toNat - 48 ≠ c.toNat - 48 := fun he =>
    hne (char_eq_of_toNat_eq (by omega))
  set D := s.data.reverse.map (fun ch => ch.toNat - 48) with hDdef
  have hDlen : D.length = 16 := by simp [hDdef, hld]
  have hj : 16 - 1 - i < D.length := by omega
  have hrev : ((s.data.set i c').reverse.map (fun ch => ch.toNat - 48))
      = D.set (16 - 1 - i) (c'.toNat - 48) := by
    rw [set_reverse s.data i hi c', hld, List.map_set]
  have holdq : D[16 - 1 - i]? = some (c.toNat - 48) := by
    simp only [hDdef, List.getElem?_map]
    rw [List.getElem?_reverse (by omega), hld,
      show 16 - 1 - (16 - 1 - i) = i from by omega, hg]
    rfl
  have hold : D.get ⟨16 - 1 - i, hj⟩ = c.toNat - 48 := by
    rw [List.get_eq_getElem]
    rw [List.getElem?_eq_getElem hj] at holdq
    exact Option.some.inj holdq
  have h0 : ((luhnSum D false : ℕ) : ZMod 10) = 0 := by
    rw [ZMod.natCast_zmod_eq_zero_iff_dvd, Nat.dvd_iff_mod_eq_zero]
    simpa [validateChecksum, hDdef] using hcs
  have hterm := luhnTerm_cast_ne (luhnAlt false (16 - 1 - i))
    ⟨c'.toNat - 48, by omega⟩ ⟨c.toNat - 48, by omega⟩
    (by simp only [ne_eq, Fin.mk.injEq]; exact hvne)
  have hnz : ((luhnSum (D.set (16 - 1 - i) (c'.toNat - 48)) false : ℕ) : ZMod 10) ≠ 0 := by
    rw [luhnSum_set D (16 - 1 - i) (c'.toNat - 48) false hj, hold, h0, zero_add]
    exact sub_ne_zero_of_ne hterm
  show (luhnSum ((s.data.set i c').reverse.map (fun ch => ch.toNat - 48)) false % 10 == 0) = false
  rw [hrev, beq_eq_false_iff_ne]
  intro h10
  apply hnz
  rw [ZMod.natCast_zmod_eq_zero_iff_dvd, Nat.dvd_iff_mod_eq_zero]
  exact h10

/-- A 16-digit string that fails the checksum classifies as
`INVALID_CHECKSUM "SUICA"`. -/
theorem validateCardNumber_checksum_false {s : String}
    (hd : s.data.all Char.isDigit = true) (hl : s.length = 16)
    (hc : validateChecksum s = false) :
    validateCardNumber s = CardResult.INVALID_CHECKSUM "SUICA" := by
  have hsan : sanitizeString s = s := sanitizeInput_digits hd
  have hld : s.data.length = 16 := by rw [← string_length_data]; exact hl
  have hemp : s.isEmpty = false := by
    rw [Bool.eq_false_iff]
    intro h
    rw [(String.isEmpty_iff s).mp h] at hld
    simp at hld
  have hval : isValidString s = true := by
    simp [isValidString, hemp]
  have hpat : patDigits 16 s = true := by
    simp [patDigits, hd, hl]
  have hdig : allDigits1 s = true := by
    simp [allDigits1, hemp, hd]
  simp only [validateCardNumber, hsan, hval, hl, hdig, Bool.not_true, Bool.false_eq_true,
    if_false, detectCardType_digits16 hpat, hc]
  norm_num

/-- C4: `validateChecksum` implements the standard Luhn algorithm exactly
as the spec words it, and for every 16-digit string (the checksum-bearing
format class) passing the check, replacing any single digit by a different
digit makes classification return `INVALID_CHECKSUM` (with the detected
type `"SUICA"`, the first 16-digit format). -/
theorem c4_luhn_standard_and_substitution :
    (∀ s : String, validateChecksum s = luhnStandardSpec s) ∧
    (∀ (s : String) (i : Nat) (c c' : Char),
      s.data.all Char.isDigit = true → s.length = 16 →
      validateChecksum s = true →
      s.data[i]? = some c → c'.isDigit = true → c' ≠ c →
      validateCardNumber (String.mk (s.data.set i c')) =
        CardResult.INVALID_CHECKSUM "SUICA") := by
  constructor
  · exact validateChecksum_eq_spec
  · intro s i c c' hd hl hcs hg hc' hne
    have hd' : (String.mk (s.data.set i c')).data.all Char.isDigit = true := by
      rw [List.all_eq_true]
      intro x hx
      rcases List.mem_or_eq_of_mem_set hx with hmem | heq
      · exact List.all_eq_true.mp hd x hmem
      · rw [heq]
        exact hc'
    have hl' : (String.mk (s.data.set i c')).length = 16 := by
      rw [string_length_data]
      show (s.data.set i c').length = 16
      rw [List.length_set, ← string_length_data]
      exact hl
    exact validateCardNumber_checksum_false hd' hl'
      (validateChecksum_set_false hd hl hcs hg hc' hne)

/-- Witness for C4: `"0000000000000000"` is Luhn-valid; flipping its first
digit to `1` yields `INVALID_CHECKSUM`. -/
theorem c4_luhn_standard_and_substitution_witness :
    ("0000000000000000" : String).data.all Char.isDigit = true ∧
    ("0000000000000000" : String).length = 16 ∧
    validateChecksum "0000000000000000" = true ∧
    validateCardNumber (String.mk (("0000000000000000" : String).data.set 0 '1')) =
      CardResult.INVALID_CHECKSUM "SUICA" := by
  refine ⟨by decide, by decide, by decide, ?_⟩
  exact c4_luhn_standard_and_substitution.2 "0000000000000000" 0 '0' '1'
    (by decide) (by decide) (by decide) (by decide) (by decide) (by decide)

/-- C10: every 16-digit string is matched by the SUICA entry, which comes
first, so detection only ever reports SUICA, CORPORATE or STUDENT (or no
match); the ICOCA, MANACA, TOICA, SUGOCA, KITACA, HAYAKAKEN and NIMOCA
entries — whose patterns are the identical 16-digit regex — are
unreachable. -/
theorem c10_shadowed_card_types (s : String) :
    (patDigits 16 s = true → (detectCardType s).map CardFormat.type = some "SUICA") ∧
    (∀ cfg, detectCardType s = some cfg →
      cfg.type = "SUICA" ∨ cfg.type = "CORPORATE" ∨ cfg.type = "STUDENT") := by
  cases h16 : patDigits 16 s <;>
    cases h1 : patDigitsBetween 10 12 s <;>
      cases h2 : patDigitsBetween 8 14 s <;>
        constructor <;>
          simp_all [detectCardType, cardPatterns, List.find?]

/-- Witness for C10 at the 16-digit input `"1111222233334444"`. -/
theorem c10_shadowed_card_types_witness :
    patDigits 16 "1111222233334444" = true ∧
    (detectCardType "1111222233334444").map CardFormat.type = some "SUICA" := by
  have h := (c10_shadowed_card_types "1111222233334444").1 (by decide)
  exact ⟨by decide, h⟩

/-- C2: `validateField` performs its checks in the fixed short-circuit
order unknown-field, null/required, security scan, maximum length,
required-after-trim, pattern, sanitization.  In particular any value the
scan flags yields `SECURITY_VIOLATION` regardless of its length, and an
`EXCESSIVE_LENGTH` result reports the actual input length and the
limit. -/
theorem c2_validateField_check_order :
    (∀ (st : List Nat) (fieldName : String) (value : JsVal) (allowEmpty : Bool),
      lookupRule fieldName = none →
      (validateField st fieldName value allowEmpty).1 = .UNKNOWN_FIELD) ∧
    (∀ (st : List Nat) (fieldName : String) (rule : FieldRule) (allowEmpty : Bool)
        (value : JsVal), lookupRule fieldName = some rule →
      (value = JsVal.null ∨ value = JsVal.undefined) →
      (validateField st fieldName value allowEmpty).1 =
        (if rule.required && !allowEmpty then .REQUIRED_FIELD else .ok "" none)) ∧
    (∀ (st : List Nat) (fieldName : String) (rule : FieldRule) (v : Violation)
        (stringValue : String), lookupRule fieldName = some rule →
      (performSecurityCheck stringValue st).1 = some v →
      (validateField st fieldName (.str stringValue) false).1 = .SECURITY_VIOLATION v) ∧
    (∀ (st : List Nat) (fieldName : String) (rule : FieldRule) (stringValue : String),
      lookupRule fieldName = some rule →
      (performSecurityCheck stringValue st).1 = none →
      stringValue.length > rule.maxLength →
      (validateField st fieldName (.str stringValue) false).1 =
        .EXCESSIVE_LENGTH stringValue.length rule.maxLength) ∧
    (∀ (st : List Nat) (fieldName : String) (rule : FieldRule) (stringValue : String),
      lookupRule fieldName = some rule →
      (performSecurityCheck stringValue st).1 = none →
      stringValue.length ≤ rule.maxLength →
      rule.required = true → (jsTrim stringValue.data).length = 0 →
      (validateField st fieldName (.str stringValue) false).1 = .REQUIRED_FIELD) ∧
    (∀ (st : List Nat) (fieldName : String) (rule : FieldRule) (pat : String → Bool)
        (stringValue : String), lookupRule fieldName = some rule →
      (performSecurityCheck stringValue st).1 = none →
      stringValue.length ≤ rule.maxLength →
      (jsTrim stringValue.data).length ≠ 0 →
      rule.pattern = some pat → pat stringValue = false →
      (validateField st fieldName (.str stringValue) false).1 = .INVALID_FORMAT) ∧
    (∀ (st : List Nat) (fieldName : String) (rule : FieldRule) (stringValue : String),
      lookupRule fieldName = some rule →
      (performSecurityCheck stringValue st).1 = none →
      stringValue.length ≤ rule.maxLength →
      ¬(rule.required = true ∧ (jsTrim stringValue.data).length = 0) →
      (∀ pat, rule.pattern = some pat →
        (jsTrim stringValue.data).length = 0 ∨ pat stringValue = true) →
      (validateField st fieldName (.str stringValue) false).1 =
        .ok (if rule.sanitize then sanitizeString stringValue else stringValue)
          (some stringValue)) := by
  refine ⟨?_, ?_, ?_, ?_, ?_, ?_, ?_⟩
  · intro st fieldName value allowEmpty h
    simp [validateField, h]
  · intro st fieldName rule allowEmpty value h hv
    rcases hv with hv | hv <;> subst hv <;> simp [validateField, h] <;> split <;> rfl
  · intro st fieldName rule v stringValue h hsec
    simp [validateField, h, hsec]
  · intro st fieldName rule stringValue h hsec hlen
    simp [validateField, h, hsec, hlen]
  · intro st fieldName rule stringValue h hsec hlen hreq htrim
    simp [validateField, h, hsec, Nat.not_lt.mpr hlen, hreq, htrim]
  · intro st fieldName rule pat stringValue h hsec hlen htrim hpat hmatch
    have htr : ((jsTrim stringValue.data).length == 0) = false := by
      simpa using htrim
    simp [validateField, h, hsec, Nat.not_lt.mpr hlen, hpat, hmatch, htr]
  · intro st fieldName rule stringValue h hsec hlen hreq hpat
    have hreq' : (rule.required && ((jsTrim stringValue.data).length == 0)) = false := by
      rcases Bool.eq_false_or_eq_true rule.required with hr | hr
      · simp only [hr, Bool.true_and, beq_eq_false_iff_ne, ne_eq]
        intro hzero
        exact hreq ⟨hr, hzero⟩
      · simp [hr]
    have hpat' : (match rule.pattern with
        | some pat => !((jsTrim stringValue.data).length == 0) && !(pat stringValue)
        | none => false) = false := by
      cases hp : rule.pattern with
      | none => rfl
      | some pat =>
        rcases hpat pat hp with hz | hm
        · simp [hz]
        · simp [hm]
    simp [validateField, h, hsec, Nat.not_lt.mpr hlen, hreq', hpat']

/-- Witness for C2: on the registered field `employeeId`
(`maxLength = 12`), the 15-character value `"DROP;DROP;DROP2"` that both
matches a dangerous pattern and exceeds the limit yields
`SECURITY_VIOLATION`, and the safe 13-character value `"abcdefghijklm"`
yields `EXCESSIVE_LENGTH 13 12`. -/
theorem c2_validateField_check_order_witness :
    lookupRule "employeeId" = some ⟨some patEmployeeId, 12, true, true⟩ ∧
    (performSecurityCheck "DROP;DROP;DROP2" xssInit).1 = some Violation.SQL_INJECTION ∧
    ("DROP;DROP;DROP2" : String).length > 12 ∧
    (validateField xssInit "employeeId" (.str "DROP;DROP;DROP2") false).1 =
      .SECURITY_VIOLATION Violation.SQL_INJECTION ∧
    (performSecurityCheck "abcdefghijklm" xssInit).1 = none ∧
    (validateField xssInit "employeeId" (.str "abcdefghijklm") false).1 =
      .EXCESSIVE_LENGTH 13 12 := by
  refine ⟨rfl, by decide, by decide, ?_, by decide, ?_⟩
  · exact c2_validateField_check_order.2.2.1 xssInit "employeeId"
      ⟨some patEmployeeId, 12, true, true⟩ Violation.SQL_INJECTION
      "DROP;DROP;DROP2" rfl (by decide)
  · exact c2_validateField_check_order.2.2.2.1 xssInit "employeeId"
      ⟨some patEmployeeId, 12, true, true⟩ "abcdefghijklm" rfl (by decide) (by decide)

/-! ### Object-validation lemmas -/

theorem validateFields_fst (data : List (String × JsVal)) :
    ∀ st, (validateFields st data).fieldResults.map Prod.fst = data.map Prod.fst := by
  induction data with
  | nil => intro st; rfl
  | cons kv rest ih =>
    intro st
    obtain ⟨fieldName, value⟩ := kv
    simp [validateFields, ih]

theorem validateFields_sanitized (data : List (String × JsVal)) :
    ∀ st, (validateFields st data).sanitizedData =
      (validateFields st data).fieldResults.filterMap
        (fun p => (p.2.sanitizedValue?).map (fun sv => (p.1, sv))) := by
  induction data with
  | nil => intro st; rfl
  | cons kv rest ih =>
    intro st
    obtain ⟨fieldName, value⟩ := kv
    simp only [validateFields, List.filterMap_cons]
    cases hv : (validateField st fieldName value false).1.sanitizedValue? with
    | none => simp [hv, ih]
    | some sv => simp [hv, ih]

theorem validateFields_errors_empty (data : List (String × JsVal)) :
    ∀ st, ((validateFields st data).errors = [] ↔
      ∀ p ∈ (validateFields st data).fieldResults, isOkResult p.2 = true) := by
  induction data with
  | nil => intro st; simp [validateFields]
  | cons kv rest ih =>
    intro st
    obtain ⟨fieldName, value⟩ := kv
    simp only [validateFields]
    cases hok : isOkResult (validateField st fieldName value false).1 with
    | false =>
      simp only [Bool.false_eq_true, if_false]
      constructor
      · intro h
        cases h
      · intro h
        have hmem := h (fieldName, (validateField st fieldName value false).1)
          (List.mem_cons_self _ _)
        rw [hok] at hmem
        cases hmem
    | true =>
      simp only [if_true]
      rw [ih]
      constructor
      · intro h p hp
        rcases List.mem_cons.mp hp with he | hm
        · rw [he]
          exact hok
        · exact h p hm
      · intro h p hp
        exact h p (List.mem_cons_of_mem _ hp)

theorem validateFields_errors_no_missing (data : List (String × JsVal)) :
    ∀ st f, (validateFields st data).errors.count (ObjectError.MISSING_REQUIRED_FIELD f) = 0 := by
  induction data with
  | nil => intro st f; rfl
  | cons kv rest ih =>
    intro st f
    obtain ⟨fieldName, value⟩ := kv
    simp only [validateFields]
    cases hok : isOkResult (validateField st fieldName value false).1 with
    | true =>
      simp only [if_true]
      exact ih _ f
    | false =>
      simp only [Bool.false_eq_true, if_false, List.count_cons, ih _ f]
      simp

/-- Counting the `MISSING_REQUIRED_FIELD` entries produced by the
required-field loop: exactly one per required name that is absent or
null, given distinct required names. -/
theorem count_missing (data : List (String × JsVal)) (f : String) :
    ∀ req : List String, req.Nodup →
      ((req.filter (fun g => absentOrNull data g)).map
          ObjectError.MISSING_REQUIRED_FIELD).count
        (ObjectError.MISSING_REQUIRED_FIELD f) =
        if f ∈ req ∧ absentOrNull data f = true then 1 else 0
  | [], _ => by simp
  | g :: req, hnd => by
    have hnd' := (List.nodup_cons.mp hnd).2
    have hgnotin := (List.nodup_cons.mp hnd).1
    have ih := count_missing data f req hnd'
    by_cases hfg : f = g
    · subst hfg
      have hfnotin : ¬(f ∈ req ∧ absentOrNull data f = true) := fun hc => hgnotin hc.1
      cases hg : absentOrNull data f with
      | false =>
        rw [List.filter_cons_of_neg (by simp [hg]), ih, if_neg hfnotin,
          if_neg (by simp [hg])]
      | true =>
        rw [List.filter_cons_of_pos (by simp [hg])]
        simp only [List.map_cons, List.count_cons, ih]
        rw [if_neg hfnotin]
        simp [hg]
    · have hmemiff : (f ∈ g :: req ∧ absentOrNull data f = true) ↔
          (f ∈ req ∧ absentOrNull data f = true) := by
        constructor
        · intro hc
          exact ⟨(List.mem_cons.mp hc.1).resolve_left hfg, hc.2⟩
        · intro hc
          exact ⟨List.mem_cons_of_mem g hc.1, hc.2⟩
      cases hg : absentOrNull data g with
      | false =>
        rw [List.filter_cons_of_neg (by simp [hg]), ih]
        by_cases hf : f ∈ req ∧ absentOrNull data f = true
        · rw [if_pos hf, if_pos (hmemiff.mpr hf)]
        · rw [if_neg hf, if_neg (fun hc => hf (hmemiff.mp hc))]
      | true =>
        rw [List.filter_cons_of_pos (by simp [hg])]
        simp only [List.map_cons, List.count_cons, ih]
        have hne : (ObjectError.MISSING_REQUIRED_FIELD g ==
            ObjectError.MISSING_REQUIRED_FIELD f) = false := by
          rw [beq_eq_false_iff_ne]
          intro hc
          injection hc with hc'
          exact hfg hc'.symm
        rw [hne]
        by_cases hf : f ∈ req ∧ absentOrNull data f = true
        · rw [if_pos hf, if_pos (hmemiff.mpr hf)]
          simp
        · rw [if_neg hf, if_neg (fun hc => hf (hmemiff.mp hc))]
          simp

/-- C3: `validateObject` records exactly one `MISSING_REQUIRED_FIELD`
error per (distinct) required name absent or null/undefined in `data`,
independent of per-field validation; it runs the field validator on every
key present in `data`; `sanitizedData` holds exactly the successfully
validated fields with their sanitized values; and `valid` holds iff there
is no missing-required error and no per-field failure. -/
theorem c3_validateObject (st : List Nat) (data : List (String × JsVal))
    (req : List String) (hnd : req.Nodup) :
    (∀ f : String,
      (validateObject st data req).1.errors.count (ObjectError.MISSING_REQUIRED_FIELD f) =
        if f ∈ req ∧ absentOrNull data f = true then 1 else 0) ∧
    (validateObject st data req).1.fieldResults.map Prod.fst = data.map Prod.fst ∧
    (validateObject st data req).1.sanitizedData =
      (validateObject st data req).1.fieldResults.filterMap
        (fun p => (p.2.sanitizedValue?).map (fun sv => (p.1, sv))) ∧
    ((validateObject st data req).1.valid = true ↔
      ((∀ f ∈ req, absentOrNull data f = false) ∧
        ∀ p ∈ (validateObject st data req).1.fieldResults, isOkResult p.2 = true)) := by
  refine ⟨?_, ?_, ?_, ?_⟩
  · intro f
    simp only [validateObject, List.count_append]
    rw [validateFields_errors_no_missing data st f, Nat.add_zero]
    exact count_missing data f req hnd
  · simpa [validateObject] using validateFields_fst data st
  · simpa [validateObject] using validateFields_sanitized data st
  · simp only [validateObject, Bool.and_eq_true, List.isEmpty_iff, List.map_eq_nil_iff,
      List.filter_eq_nil_iff, Bool.not_eq_true]
    rw [validateFields_errors_empty data st]

/-- Witness for C3 at the spec's example:
`validateObject({employeeId: "EMP001"}, ["employeeId", "employeeName"])`
is invalid with exactly one `MISSING_REQUIRED_FIELD` error, for
`employeeName`. -/
theorem c3_validateObject_witness :
    (["employeeId", "employeeName"] : List String).Nodup ∧
    (validateObject xssInit [("employeeId", JsVal.str "EMP001")]
        ["employeeId", "employeeName"]).1.errors =
      [ObjectError.MISSING_REQUIRED_FIELD "employeeName"] ∧
    (validateObject xssInit [("employeeId", JsVal.str "EMP001")]
        ["employeeId", "employeeName"]).1.valid = false ∧
    (validateObject xssInit [("employeeId", JsVal.str "EMP001")]
        ["employeeId", "employeeName"]).1.errors.count
      (ObjectError.MISSING_REQUIRED_FIELD "employeeName") = 1 := by
  refine ⟨by decide, by decide, by decide, ?_⟩
  have h := (c3_validateObject xssInit [("employeeId", JsVal.str "EMP001")]
    ["employeeId", "employeeName"] (by decide)).1 "employeeName"
  rw [h, if_pos]
  exact ⟨by decide, by decide⟩

end ICLoss
